import Mathlib

/-!
# Verification of the image-labeling tool (streamlit_app.py)

Shallow embedding of the UI-state logic of `src/streamlit_app.py`:
the label catalog, the per-rerun selection/validation logic of `main`
(lines 259-316), the unconditional store write (line 305), the
navigation guards (lines 320-345), the image path resolution
(`DataLoader.get_image_path`, lines 71-88) and the export serializer
(`save_annotations_to_json`, lines 168-198).

Framework glue (rendering, caching, file I/O) is out of scope; the
filesystem is modelled as the list of existing paths, and one Streamlit
rerun at a fixed position is modelled as a pure function of the stored
selection and the user's checkbox states.
-/

/-- The 10 fixed labels (source lines 24-35). -/
def LABELS : List String :=
  ["(a) Code",
   "(b) Run Time Error",
   "(c) Menus and Preferences",
   "(d) Dialog Box",
   "(e) Steps and Processes",
   "(f) Program Input",
   "(g) Desired Output",
   "(h) Program Output",
   "(i) CPU/GPU Performance",
   "(j) Algorithm/Concept Description"]

/-- The sentinel pseudo-label (source line 38). -/
def NONE_OPTION : String := "None of the above labels can apply"

/-- One dataset row: an association list from column name to cell value.
A column absent from the list models a column missing from the CSV;
a cell value of `none` models a pandas `NaN`. -/
structure Record where
  cols : List (String × Option String)
deriving DecidableEq

/-- The columns the export keeps (source line 178). -/
def keep_columns : List String := ["post_id", "title", "link"]

/-- The `img_info` dict built by `save_annotations_to_json` (source lines
179-189): for each kept column, if the column exists in the row its value
is projected (a `NaN` cell becomes an explicit `none`); a column absent
from the row is skipped, so no key is emitted for it. -/
def imgInfo (row : Record) : List (String × Option String) :=
  keep_columns.filterMap (fun c => (row.cols.lookup c).map (fun v => (c, v)))

/-- One entry of the exported document (source lines 191-195). -/
structure AnnotationEntry where
  image_index : Nat
  image_info : List (String × Option String)
  selected_labels : List String
deriving DecidableEq

/-- The export serializer (source lines 168-198): one entry per item of the
annotation map whose index resolves to a dataset row, carrying the
projected `img_info` and the stored label list verbatim. The map keys are
`str(index)` in the source and are converted back with `int`, so they are
modelled directly as naturals. -/
def save_annotations_to_json (anns : List (Nat × List String))
    (images_data : List Record) : List AnnotationEntry :=
  anns.filterMap (fun a =>
    (images_data.get? a.1).map (fun row =>
      { image_index := a.1, image_info := imgInfo row, selected_labels := a.2 }))

/-- `os.path.join` for the relative components used by the app. -/
def pjoin (a b : String) : String := a ++ "/" ++ b

/-- The candidate path list of `DataLoader.get_image_path` (source lines
77-82), in source order: `<data>/f`, `<data>/images/f`, `<script>/images/f`,
`<script>/f`. -/
def possible_paths (data_dir script_dir fname : String) : List String :=
  [pjoin data_dir fname,
   pjoin (pjoin data_dir "images") fname,
   pjoin (pjoin script_dir "images") fname,
   pjoin script_dir fname]

/-- `DataLoader.get_image_path` (source lines 71-88) over a filesystem `fs`
given as the list of existing paths. A `none` filename models a pandas
`NaN`; the empty string is falsy in Python, so both short-circuit to
`none`. Otherwise the first existing candidate path wins; `none` is
returned after all four candidates fail. -/
def get_image_path (fs : List String) (data_dir script_dir : String)
    (image_filename : Option String) : Option String :=
  match image_filename with
  | none => none
  | some fname =>
    if fname = "" then none
    else (possible_paths data_dir script_dir fname).find? (fun p => fs.contains p)

/-- Resolution procedure following the specification's words (spec section
4.2, policy 1), for comparison with `get_image_path`: scan the cross
product of the directory list `<data>/images, <data>, <script>/images,
<script>`, the extension list `jpg, jpeg, png, gif, bmp, webp, tiff, tif`
and the three case variants of the identifier, in that nesting order;
first existing path wins, `none` only after the whole cross product. -/
def spec_resolve (fs : List String) (data_dir script_dir ident : String) :
    Option String :=
  let dirs := [pjoin data_dir "images", data_dir, pjoin script_dir "images", script_dir]
  let exts := ["jpg", "jpeg", "png", "gif", "bmp", "webp", "tiff", "tif"]
  let variants := [ident, ident.toLower, ident.toUpper]
  (dirs.flatMap (fun d =>
    exts.flatMap (fun e =>
      variants.map (fun v => pjoin d (v ++ "." ++ e))))).find? (fun p => fs.contains p)

/-- Outcome of one Streamlit rerun of the selection column (source lines
259-316) at a fixed position. -/
structure CycleResult where
  selected : List String
  noneChecked : Bool
  stored : List String
  valid : Bool
  tooManyErr : Bool
  selectWarn : Bool
deriving DecidableEq

/-- One rerun of the selection logic (source lines 263-305). `prior` is the
stored selection for the current position, `boxes` the labels whose
checkboxes the user has checked, `userNone` the state of the sentinel
checkbox when it is enabled.

Source correspondence: `none_selected` is membership of the sentinel in the
prior selection (line 269); label checkboxes are disabled and unchecked
when `none_selected` (lines 273-277), so `selected_labels` is then empty,
and is otherwise the checked labels in catalog order; the sentinel checkbox
is disabled when labels are selected and then shows `none_selected` (lines
283-285); `final_selection` and `selection_valid` follow lines 287-296; the
maximum-3 error and the select-something warning follow lines 299-302; the
result is stored unconditionally (line 305). -/
def displayCycle (prior boxes : List String) (userNone : Bool) : CycleResult :=
  let noneSel : Bool := prior.contains NONE_OPTION
  let selLabels : List String :=
    if noneSel then [] else LABELS.filter (fun l => boxes.contains l)
  let noneChecked : Bool := if selLabels.isEmpty then userNone else noneSel
  let stored : List String := if noneChecked then [NONE_OPTION] else selLabels
  let valid : Bool :=
    if noneChecked then true
    else if selLabels.isEmpty then false
    else decide (selLabels.length ≤ 3)
  let tooMany : Bool := decide (3 < selLabels.length)
  { selected := selLabels, noneChecked := noneChecked, stored := stored,
    valid := valid, tooManyErr := tooMany, selectWarn := !tooMany && !valid }

/-- Rerunning the selection column with no user interaction: each checkbox
shows its default, i.e. membership of its label in the stored selection
(line 276) and `none_selected` for the sentinel box (line 285). -/
def redisplay (stored : List String) : CycleResult :=
  displayCycle stored stored (stored.contains NONE_OPTION)

/-- Validity of a stored selection, as `selection_valid` recomputes it on a
rerun with no user interaction (source lines 287-296). -/
def isValid (stored : List String) : Bool := (redisplay stored).valid

/-- The three navigation controls (source lines 320-345). -/
inductive NavAction where
  | prev : NavAction
  | next : NavAction
  | jump : Int → NavAction
deriving DecidableEq

/-- One navigation step. A disabled button cannot fire, so a transition
whose guard fails leaves the position unchanged. Guards follow the source:
Previous is enabled iff the index is nonzero and the selection is valid
(line 323); Next iff the index is below `total - 1` and the selection is
valid (line 329); Go iff the selection is valid, with the 1-based target
kept in `[1, total]` by the number input's bounds (lines 335-344). -/
def navStep (total cur : Int) (valid : Bool) : NavAction → Int
  | NavAction.prev => if cur ≠ 0 ∧ valid = true then cur - 1 else cur
  | NavAction.next => if cur < total - 1 ∧ valid = true then cur + 1 else cur
  | NavAction.jump t => if 1 ≤ t ∧ t ≤ total ∧ valid = true then t - 1 else cur

/-- A sequence of navigation attempts from the initial position 0, each
with the validity bit of the then-current selection. -/
def navRun (total : Int) (acts : List (Bool × NavAction)) : Int :=
  acts.foldl (fun c a => navStep total c a.1 a.2) 0

/-- Look up the stored selection for a position, defaulting to the empty
selection (source lines 264-266). -/
def lookupAnn (m : List (Nat × List String)) (p : Nat) : List String :=
  (m.lookup p).getD []

/-- Write a selection into the annotation map with Python-dict semantics:
an existing key is updated in place, a new key is appended (source
line 305). -/
def setAnn (m : List (Nat × List String)) (p : Nat) (v : List String) :
    List (Nat × List String) :=
  if m.any (fun q => q.1 = p) then
    m.map (fun q => if q.1 = p then (p, v) else q)
  else m ++ [(p, v)]

/-- The session state carried across reruns: the current (0-based)
position and the annotation map (source lines 41-46). -/
structure AppState where
  current : Int
  anns : List (Nat × List String)
deriving DecidableEq

/-- The initial session state: position 0, empty map (source lines 41-44). -/
def initState : AppState := { current := 0, anns := [] }

/-- What the user did during one rerun: checkbox states plus at most one
navigation control press. -/
structure UserInput where
  boxes : List String
  noneBox : Bool
  nav : Option NavAction
deriving DecidableEq

/-- One full rerun of `main` at the current position: run the selection
logic, store its result unconditionally (line 305), then apply the pressed
navigation control, if any, gated by the just-computed validity (lines
320-345). -/
def appStep (total : Int) (st : AppState) (inp : UserInput) : AppState :=
  let p := st.current.toNat
  let r := displayCycle (lookupAnn st.anns p) inp.boxes inp.noneBox
  { current :=
      match inp.nav with
      | none => st.current
      | some a => navStep total st.current r.valid a,
    anns := setAnn st.anns p r.stored }

/-- Run a sequence of reruns. -/
def runApp (total : Int) (st : AppState) : List UserInput → AppState
  | [] => st
  | i :: is => runApp total (appStep total st i) is

/-- The positions displayed during a sequence of reruns (each rerun
displays the then-current position). -/
def displayedPositions (total : Int) (st : AppState) : List UserInput → List Nat
  | [] => []
  | i :: is => st.current.toNat :: displayedPositions total (appStep total st i) is

/-! ## Helper lemmas -/

/-- The sentinel is not a catalog label. -/
lemma none_option_not_label : NONE_OPTION ∉ LABELS := by decide

/-- Projections of `displayCycle`, unfolded. -/
lemma displayCycle_selected (prior boxes : List String) (un : Bool) :
    (displayCycle prior boxes un).selected =
      if prior.contains NONE_OPTION then []
      else LABELS.filter (fun l => boxes.contains l) := rfl

lemma displayCycle_stored_eq (prior boxes : List String) (un : Bool) :
    (displayCycle prior boxes un).stored =
      if (displayCycle prior boxes un).noneChecked then [NONE_OPTION]
      else (displayCycle prior boxes un).selected := rfl

lemma displayCycle_noneChecked (prior boxes : List String) (un : Bool) :
    (displayCycle prior boxes un).noneChecked =
      if (displayCycle prior boxes un).selected.isEmpty then un
      else prior.contains NONE_OPTION := rfl

lemma displayCycle_valid (prior boxes : List String) (un : Bool) :
    (displayCycle prior boxes un).valid =
      if (displayCycle prior boxes un).noneChecked then true
      else if (displayCycle prior boxes un).selected.isEmpty then false
      else decide ((displayCycle prior boxes un).selected.length ≤ 3) := rfl

lemma displayCycle_tooManyErr (prior boxes : List String) (un : Bool) :
    (displayCycle prior boxes un).tooManyErr =
      decide (3 < (displayCycle prior boxes un).selected.length) := rfl

/-! ## C1 -/

/-- C1 counterexample: the claim says that a `set` call with more than 3
raw labels leaves the stored Selection unchanged. In the code the store
write (line 305) is unconditional: starting from an empty prior selection,
checking four labels produces a rerun with more than 3 raw labels whose
stored Selection is the four-label list, not the unchanged empty one. -/
theorem C1_counterexample :
    3 < (displayCycle []
          ["(a) Code", "(b) Run Time Error", "(c) Menus and Preferences",
           "(d) Dialog Box"] false).selected.length ∧
    (displayCycle []
          ["(a) Code", "(b) Run Time Error", "(c) Menus and Preferences",
           "(d) Dialog Box"] false).stored ≠ [] := by decide

/-- C1 (amended): when a rerun's raw label selection exceeds 3 labels, the
maximum-3 validation error is surfaced, but the mutation is not rejected:
the overlong raw selection itself is stored, and the selection is marked
invalid so that all navigation is gated until it is corrected. -/
theorem C1_overlong_selection (prior boxes : List String) (un : Bool)
    (h : 3 < (displayCycle prior boxes un).selected.length) :
    (displayCycle prior boxes un).tooManyErr = true ∧
    (displayCycle prior boxes un).stored = (displayCycle prior boxes un).selected ∧
    (displayCycle prior boxes un).valid = false := by
  have hne : (displayCycle prior boxes un).selected.isEmpty = false := by
    cases he : (displayCycle prior boxes un).selected with
    | nil => rw [he] at h; simp at h
    | cons a l => simp [he]
  have hnc : (displayCycle prior boxes un).noneChecked = false := by
    rw [displayCycle_noneChecked, hne]
    by_cases hp : prior.contains NONE_OPTION = true
    · rw [displayCycle_selected, hp] at hne
      simp at hne
    · simp at hp
      simp [hp]
  refine ⟨?_, ?_, ?_⟩
  · rw [displayCycle_tooManyErr]
    simpa using h
  · rw [displayCycle_stored_eq, hnc]
    simp
  · rw [displayCycle_valid, hnc, hne]
    simpa using Nat.not_le.mpr h

/-- C1 witness: the amended theorem at a concrete overlong selection. -/
theorem C1_overlong_selection_witness :
    3 < (displayCycle []
          ["(a) Code", "(b) Run Time Error", "(c) Menus and Preferences",
           "(d) Dialog Box"] false).selected.length ∧
    ((displayCycle []
          ["(a) Code", "(b) Run Time Error", "(c) Menus and Preferences",
           "(d) Dialog Box"] false).tooManyErr = true ∧
     (displayCycle []
          ["(a) Code", "(b) Run Time Error", "(c) Menus and Preferences",
           "(d) Dialog Box"] false).stored =
       (displayCycle []
          ["(a) Code", "(b) Run Time Error", "(c) Menus and Preferences",
           "(d) Dialog Box"] false).selected ∧
     (displayCycle []
          ["(a) Code", "(b) Run Time Error", "(c) Menus and Preferences",
           "(d) Dialog Box"] false).valid = false) :=
  ⟨by decide,
   C1_overlong_selection []
     ["(a) Code", "(b) Run Time Error", "(c) Menus and Preferences",
      "(d) Dialog Box"] false (by decide)⟩

/-! ## C3 -/

/-- C3 counterexample: the claim says `isValid` is true for every non-empty
stored Selection. But a rerun with four checked labels stores the non-empty
four-label list (line 305 stores unconditionally), and on redisplay
`selection_valid` is false for it, since four labels exceed the maximum. -/
theorem C3_counterexample :
    (displayCycle []
        ["(a) Code", "(b) Run Time Error", "(c) Menus and Preferences",
         "(d) Dialog Box"] false).stored ≠ [] ∧
    isValid ((displayCycle []
        ["(a) Code", "(b) Run Time Error", "(c) Menus and Preferences",
         "(d) Dialog Box"] false).stored) = false := by decide

/-- C3 (amended): `isValid` holds exactly when the stored Selection
contains the sentinel, or contains between 1 and 3 catalog labels. In
particular it is false for the empty Selection, and also false for a
stored Selection of more than 3 labels, which is reachable because the
store write is unconditional. -/
theorem C3_isValid_characterisation (stored : List String) :
    isValid stored =
      (stored.contains NONE_OPTION ||
       (decide (1 ≤ (LABELS.filter (fun l => stored.contains l)).length) &&
        decide ((LABELS.filter (fun l => stored.contains l)).length ≤ 3))) := by
  unfold isValid redisplay
  rw [displayCycle_valid, displayCycle_noneChecked, displayCycle_selected]
  by_cases hn : stored.contains NONE_OPTION = true
  · rw [hn]
    simp
  · rw [Bool.not_eq_true] at hn
    rw [hn]
    cases hF : (LABELS.filter (fun l => stored.contains l)).isEmpty
    · have h1 : decide (1 ≤ (LABELS.filter (fun l => stored.contains l)).length) = true := by
        rw [decide_eq_true_eq]
        rw [List.isEmpty_eq_false] at hF
        exact Nat.one_le_iff_ne_zero.mpr (fun h0 => hF (List.eq_nil_of_length_eq_zero h0))
      simp only [if_false, Bool.false_eq_true, hF, h1, Bool.true_and, Bool.false_or]
    · have h0 : (LABELS.filter (fun l => stored.contains l)) = [] :=
        List.isEmpty_iff.mp hF
      rw [h0]
      simp

/-! ## C4 -/

/-- C4 counterexample: the claim says resolution probes the cross product
of candidate directories, the eight extensions and the three case variants
of the identifier. On a filesystem containing exactly `d/images/42.jpg`,
the specified cross-product scan for identifier `42` succeeds (it is even
the very first candidate of that scan), but the code's `get_image_path`
returns `none`: it only joins the identifier verbatim with the four
candidate directories and never appends an extension. -/
theorem C4_counterexample :
    spec_resolve [pjoin (pjoin "d" "images") "42.jpg"] "d" "s" "42" =
      some (pjoin (pjoin "d" "images") "42.jpg") ∧
    get_image_path [pjoin (pjoin "d" "images") "42.jpg"] "d" "s" (some "42") =
      none := by decide

/-- Unfolding of `get_image_path` on a present filename into the ordered
four-way case split over the candidate paths. -/
lemma get_image_path_cases (fs : List String) (dd sd f : String) :
    get_image_path fs dd sd (some f) =
      (if f = "" then none
       else if fs.contains (pjoin dd f) then some (pjoin dd f)
       else if fs.contains (pjoin (pjoin dd "images") f) then
         some (pjoin (pjoin dd "images") f)
       else if fs.contains (pjoin (pjoin sd "images") f) then
         some (pjoin (pjoin sd "images") f)
       else if fs.contains (pjoin sd f) then some (pjoin sd f)
       else none) := by
  by_cases hf : f = ""
  · simp [get_image_path, hf]
  · simp only [get_image_path, possible_paths, hf, if_false, List.find?]
    rcases h1 : fs.contains (pjoin dd f) <;>
      rcases h2 : fs.contains (pjoin (pjoin dd "images") f) <;>
        rcases h3 : fs.contains (pjoin (pjoin sd "images") f) <;>
          rcases h4 : fs.contains (pjoin sd f) <;>
            simp [List.find?, h1, h2, h3, h4]

/-- C4 (amended): `get_image_path` does no extension or case probing: a
missing (`NaN`) filename resolves to `none`, and otherwise the filename is
joined verbatim with the four candidate directories in the order `<data>`,
`<data>/images`, `<script>/images`, `<script>` (the empty filename, falsy
in Python, also resolves to `none`); the first existing candidate wins and
`none` is returned only after all four candidates fail. -/
theorem C4_resolution_behaviour (fs : List String) (dd sd f : String) :
    get_image_path fs dd sd none = none ∧
    get_image_path fs dd sd (some f) =
      (if f = "" then none
       else if fs.contains (pjoin dd f) then some (pjoin dd f)
       else if fs.contains (pjoin (pjoin dd "images") f) then
         some (pjoin (pjoin dd "images") f)
       else if fs.contains (pjoin (pjoin sd "images") f) then
         some (pjoin (pjoin sd "images") f)
       else if fs.contains (pjoin sd f) then some (pjoin sd f)
       else none) :=
  ⟨rfl, get_image_path_cases fs dd sd f⟩

/-! ## C9 -/

/-- C9 counterexample: the claim predicts that, with identifier `42` and
`42.png` present in the second candidate directory D2 (`<data>/images`)
but not in the first candidate directory D1 (`<data>`), resolution returns
the D2 path. The code joins the identifier verbatim without appending any
extension, so it returns `none` rather than the D2 path. -/
theorem C9_counterexample :
    get_image_path [pjoin (pjoin "d" "images") "42.png"] "d" "s" (some "42") =
      none := by decide

/-- C9 (amended): directory-order priority holds when the extension is part
of the supplied filename: for filename `42.png`, if D1 = `<data>` does not
contain it while D2 = `<data>/images` does, resolution returns the path
under D2 — priority is the fixed candidate order, not alphabetical order. -/
theorem C9_directory_order (fs : List String) (dd sd : String)
    (h1 : fs.contains (pjoin dd "42.png") = false)
    (h2 : fs.contains (pjoin (pjoin dd "images") "42.png") = true) :
    get_image_path fs dd sd (some "42.png") =
      some (pjoin (pjoin dd "images") "42.png") := by
  rw [get_image_path_cases fs dd sd "42.png"]
  simp only [h1, h2]
  simp

/-- C9 witness: the amended directory-order theorem at a concrete
filesystem holding only `d/images/42.png`. -/
theorem C9_directory_order_witness :
    ([pjoin (pjoin "d" "images") "42.png"].contains (pjoin "d" "42.png") = false) ∧
    ([pjoin (pjoin "d" "images") "42.png"].contains
        (pjoin (pjoin "d" "images") "42.png") = true) ∧
    get_image_path [pjoin (pjoin "d" "images") "42.png"] "d" "s"
        (some "42.png") = some (pjoin (pjoin "d" "images") "42.png") :=
  ⟨by decide, by decide,
   C9_directory_order [pjoin (pjoin "d" "images") "42.png"] "d" "s"
     (by decide) (by decide)⟩

/-! ## C2 -/

/-- C2 counterexample: the claim says a kept field missing from the record
appears as an explicit absent marker rather than being omitted. For a
record that has only a `post_id` column, the exported `image_info` omits
the `title` and `link` keys entirely (the source guard
`if col in img_row.index` skips absent columns), instead of emitting them
with an absent marker. -/
theorem C2_counterexample :
    save_annotations_to_json [(0, ["(a) Code"])]
        [Record.mk [("post_id", some "1")]] =
      [{ image_index := 0, image_info := [("post_id", some "1")],
         selected_labels := ["(a) Code"] }] ∧
    (imgInfo (Record.mk [("post_id", some "1")])).map Prod.fst =
      ["post_id"] := by decide

/-- C2 (amended): `image_info` projects at most the three kept fields
`post_id`, `title`, `link`, in that order: a kept column present in the
record is projected with its value, where a missing (`NaN`) cell value
becomes an explicit `none` marker; a kept column absent from the record is
omitted from `image_info` entirely; no other field is ever emitted. -/
theorem C2_projection (row : Record) :
    (imgInfo row).map Prod.fst =
      keep_columns.filter (fun c => (row.cols.lookup c).isSome) ∧
    (∀ c v, (c, v) ∈ imgInfo row → row.cols.lookup c = some v) := by
  cases hp : row.cols.lookup "post_id" <;>
    cases ht : row.cols.lookup "title" <;>
      cases hl : row.cols.lookup "link" <;>
        refine ⟨by simp [imgInfo, keep_columns, hp, ht, hl], ?_⟩ <;>
          intro c v hm <;>
            simp [imgInfo, keep_columns, hp, ht, hl] at hm <;>
              rcases hm with hm | hm | hm <;>
                simp_all

/-! ## C7 -/

/-- C7: for an annotation map with entries at positions 0 (one real label)
and 2 (the sentinel) over a 3-row dataset, the export produces exactly 2
entries, one per map entry, and the entry for position 2 carries exactly
the one-element sentinel selection. -/
theorem C7_export_roundtrip :
    (save_annotations_to_json [(0, ["(a) Code"]), (2, [NONE_OPTION])]
        [Record.mk [("post_id", some "p0"), ("title", some "t0"), ("link", some "l0")],
         Record.mk [("post_id", some "p1"), ("title", some "t1"), ("link", some "l1")],
         Record.mk [("post_id", some "p2"), ("title", some "t2"), ("link", some "l2")]]).length = 2 ∧
    (save_annotations_to_json [(0, ["(a) Code"]), (2, [NONE_OPTION])]
        [Record.mk [("post_id", some "p0"), ("title", some "t0"), ("link", some "l0")],
         Record.mk [("post_id", some "p1"), ("title", some "t1"), ("link", some "l1")],
         Record.mk [("post_id", some "p2"), ("title", some "t2"), ("link", some "l2")]]).map
      (fun e => (e.image_index, e.selected_labels)) =
      [(0, ["(a) Code"]), (2, [NONE_OPTION])] := by decide

/-! ## C5 -/

/-- A single navigation step preserves the position range. -/
lemma navStep_range (n cur : Int) (h0 : 0 ≤ cur) (h1 : cur < n)
    (v : Bool) (a : NavAction) :
    0 ≤ navStep n cur v a ∧ navStep n cur v a < n := by
  cases a with
  | prev =>
    simp only [navStep]
    split
    · rename_i h
      constructor <;> omega
    · exact ⟨h0, h1⟩
  | next =>
    simp only [navStep]
    split
    · rename_i h
      constructor <;> omega
    · exact ⟨h0, h1⟩
  | jump t =>
    simp only [navStep]
    split
    · rename_i h
      constructor <;> omega
    · exact ⟨h0, h1⟩

/-- Range preservation extends along any foldl of navigation steps. -/
lemma navFold_range (n : Int) (acts : List (Bool × NavAction))
    (cur : Int) (h0 : 0 ≤ cur) (h1 : cur < n) :
    0 ≤ acts.foldl (fun c a => navStep n c a.1 a.2) cur ∧
    acts.foldl (fun c a => navStep n c a.1 a.2) cur < n := by
  induction acts generalizing cur with
  | nil => exact ⟨h0, h1⟩
  | cons a as ih =>
    have hs := navStep_range n cur h0 h1 a.1 a.2
    exact ih (navStep n cur a.1 a.2) hs.1 hs.2

/-- C5: on a dataset of size at least 1, every sequence of navigation
transitions from the initial position keeps the current position in
`[0, n)`, and a jump whose 1-based target lies outside `[1, n]` is
rejected, leaving the position unchanged (never wrapped). -/
theorem C5_navigation_in_range (n : Int) (hn : 1 ≤ n)
    (acts : List (Bool × NavAction)) (cur : Int) (v : Bool) (t : Int)
    (hout : t < 1 ∨ n < t) :
    (0 ≤ navRun n acts ∧ navRun n acts < n) ∧
    navStep n cur v (NavAction.jump t) = cur := by
  refine ⟨navFold_range n acts 0 le_rfl hn, ?_⟩
  simp only [navStep]
  split
  · rename_i h
    omega
  · rfl

/-- C5 witness: three records, a Next then an out-of-range jump request. -/
theorem C5_navigation_in_range_witness :
    (1 : Int) ≤ 3 ∧ ((9 : Int) < 1 ∨ (3 : Int) < 9) ∧
    ((0 ≤ navRun 3 [(true, NavAction.next)] ∧
      navRun 3 [(true, NavAction.next)] < 3) ∧
     navStep 3 1 true (NavAction.jump 9) = 1) :=
  ⟨by decide, by decide,
   C5_navigation_in_range 3 (by decide) [(true, NavAction.next)] 1 true 9
     (by decide)⟩

/-! ## C8 -/

/-- C8: under the code's gating, Next from a position whose stored
Selection is valid and which is not the last position advances the current
position by exactly 1; Next from a position whose stored Selection is
empty is disabled, so the position is unchanged, and the rerun surfaces
the select-something warning for the empty Selection. -/
theorem C8_next_gating (n cur cur2 : Int) (stored : List String)
    (hv : isValid stored = true) (hlt : cur < n - 1) :
    navStep n cur (isValid stored) NavAction.next = cur + 1 ∧
    navStep n cur2 (isValid []) NavAction.next = cur2 ∧
    (redisplay []).selectWarn = true := by
  refine ⟨?_, ?_, by decide⟩
  · simp only [navStep]
    rw [if_pos ⟨hlt, hv⟩]
  · have he : isValid [] = false := by decide
    simp only [navStep, he]
    split
    · rename_i h
      exact absurd h.2 (by simp)
    · rfl

/-- C8 witness: the spec scenario on a 5-record dataset, position 0
annotated with two labels, position 1 unannotated. -/
theorem C8_next_gating_witness :
    isValid ["(a) Code", "(b) Run Time Error"] = true ∧ (0 : Int) < 5 - 1 ∧
    (navStep 5 0 (isValid ["(a) Code", "(b) Run Time Error"]) NavAction.next = 0 + 1 ∧
     navStep 5 1 (isValid []) NavAction.next = 1 ∧
     (redisplay []).selectWarn = true) :=
  ⟨by decide, by decide,
   C8_next_gating 5 0 1 ["(a) Code", "(b) Run Time Error"] (by decide)
     (by decide)⟩

/-! ## C6 -/

/-- Every selection a rerun stores is either exactly the sentinel or free
of the sentinel. -/
lemma displayCycle_sentinel_excl (prior boxes : List String) (un : Bool) :
    (displayCycle prior boxes un).stored = [NONE_OPTION] ∨
    NONE_OPTION ∉ (displayCycle prior boxes un).stored := by
  rw [displayCycle_stored_eq]
  cases hnc : (displayCycle prior boxes un).noneChecked
  · right
    simp only [Bool.false_eq_true, if_false]
    rw [displayCycle_selected]
    split
    · simp
    · intro hm
      exact none_option_not_label (List.mem_of_mem_filter hm)
  · left
    simp

/-- Membership in the updated map comes from the written value or from the
previous map. -/
lemma mem_setAnn (m : List (Nat × List String)) (p : Nat) (v : List String)
    (q : Nat × List String) (hq : q ∈ setAnn m p v) : q.2 = v ∨ q ∈ m := by
  unfold setAnn at hq
  split at hq
  · obtain ⟨q0, hq0, he⟩ := List.mem_map.1 hq
    by_cases h : q0.1 = p
    · rw [if_pos h] at he
      left
      rw [← he]
    · rw [if_neg h] at he
      right
      rw [← he]
      exact hq0
  · rcases List.mem_append.1 hq with h | h
    · right
      exact h
    · left
      have hq2 : q = (p, v) := by simpa using h
      rw [hq2]

/-- A property of all stored cycle outcomes is an invariant of the values
of the annotation map along any run. -/
lemma runApp_values (n : Int) (tr : List UserInput) (st : AppState)
    (P : List String → Prop)
    (hcycle : ∀ prior boxes un, P (displayCycle prior boxes un).stored)
    (hst : ∀ q ∈ st.anns, P q.2) :
    ∀ q ∈ (runApp n st tr).anns, P q.2 := by
  induction tr generalizing st with
  | nil => exact hst
  | cons i is ih =>
    refine ih (appStep n st i) ?_
    intro q hq
    rcases mem_setAnn st.anns st.current.toNat _ q hq with h | h
    · rw [h]
      exact hcycle _ _ _
    · exact hst q h

/-- C6: every Selection persisted in the annotation store along any run
keeps sentinel and real labels mutually exclusive: a persisted Selection
containing the sentinel is exactly the one-element sentinel Selection
(real labels are never silently merged with it), and a persisted Selection
containing any catalog label never contains the sentinel. -/
theorem C6_sentinel_exclusive (n : Int) (tr : List UserInput) (p : Nat)
    (v : List String) (hv : (p, v) ∈ (runApp n initState tr).anns) :
    (NONE_OPTION ∈ v → v = [NONE_OPTION]) ∧
    (∀ l, l ∈ v → l ∈ LABELS → NONE_OPTION ∉ v) := by
  have hP : v = [NONE_OPTION] ∨ NONE_OPTION ∉ v :=
    runApp_values n tr initState
      (fun s => s = [NONE_OPTION] ∨ NONE_OPTION ∉ s)
      (fun prior boxes un => displayCycle_sentinel_excl prior boxes un)
      (by intro q hq; simp [initState] at hq) (p, v) hv
  constructor
  · intro hmem
    rcases hP with h | h
    · exact h
    · exact absurd hmem h
  · intro l hl hlL hmem
    rcases hP with h | h
    · rw [h] at hl
      have : l = NONE_OPTION := by simpa using hl
      rw [this] at hlL
      exact none_option_not_label hlL
    · exact h hmem

/-- C6 witness: one rerun at position 0 with the sentinel box checked
persists the sentinel Selection, for which both exclusion clauses hold. -/
theorem C6_sentinel_exclusive_witness :
    ((0, [NONE_OPTION]) ∈
      (runApp 3 initState [{ boxes := [], noneBox := true, nav := none }]).anns) ∧
    ((NONE_OPTION ∈ [NONE_OPTION] → [NONE_OPTION] = [NONE_OPTION]) ∧
     (∀ l, l ∈ [NONE_OPTION] → l ∈ LABELS → NONE_OPTION ∉ [NONE_OPTION])) :=
  ⟨by decide,
   C6_sentinel_exclusive 3 [{ boxes := [], noneBox := true, nav := none }] 0
     [NONE_OPTION] (by decide)⟩

/-! ## C10 -/

/-- Keys of the updated map: unchanged when the position was already a
key, otherwise extended by the position at the end. -/
lemma setAnn_keys (m : List (Nat × List String)) (p : Nat) (v : List String) :
    (setAnn m p v).map Prod.fst =
      if m.any (fun q => q.1 = p) then m.map Prod.fst
      else m.map Prod.fst ++ [p] := by
  unfold setAnn
  split
  · rw [List.map_map]
    apply List.map_congr_left
    intro q hq
    by_cases hqp : q.1 = p
    · simp [Function.comp, hqp]
    · simp [Function.comp, hqp]
  · simp

/-- Key membership after a map write. -/
lemma mem_keys_setAnn (m : List (Nat × List String)) (p : Nat)
    (v : List String) (x : Nat) :
    x ∈ (setAnn m p v).map Prod.fst ↔ x ∈ m.map Prod.fst ∨ x = p := by
  rw [setAnn_keys]
  split
  · rename_i h
    have hp : p ∈ m.map Prod.fst := by
      rcases List.any_eq_true.1 h with ⟨q, hq, hqp⟩
      rw [decide_eq_true_eq] at hqp
      exact hqp ▸ List.mem_map_of_mem Prod.fst hq
    constructor
    · intro hx
      exact Or.inl hx
    · rintro (hx | rfl)
      · exact hx
      · exact hp
  · simp

/-- Key distinctness is preserved by a map write. -/
lemma nodup_keys_setAnn (m : List (Nat × List String)) (p : Nat)
    (v : List String) (h : (m.map Prod.fst).Nodup) :
    ((setAnn m p v).map Prod.fst).Nodup := by
  rw [setAnn_keys]
  split
  · exact h
  · rename_i hna
    rw [List.nodup_append]
    refine ⟨h, List.nodup_singleton p, ?_⟩
    intro x hx hxp
    have hxp2 : x = p := by simpa using hxp
    obtain ⟨q, hq, hq1⟩ := List.mem_map.1 (hxp2 ▸ hx)
    exact hna (List.any_eq_true.2 ⟨q, hq, by simp [hq1]⟩)

/-- Key membership after one full rerun. -/
lemma appStep_keys (n : Int) (st : AppState) (inp : UserInput) (x : Nat) :
    x ∈ (appStep n st inp).anns.map Prod.fst ↔
      x ∈ st.anns.map Prod.fst ∨ x = st.current.toNat :=
  mem_keys_setAnn st.anns st.current.toNat _ x

/-- Along any run, map keys are distinct and are exactly the initial keys
together with the displayed positions. -/
lemma runApp_keys (n : Int) (tr : List UserInput) (st : AppState)
    (h : (st.anns.map Prod.fst).Nodup) :
    ((runApp n st tr).anns.map Prod.fst).Nodup ∧
    ∀ x, x ∈ (runApp n st tr).anns.map Prod.fst ↔
      x ∈ st.anns.map Prod.fst ∨ x ∈ displayedPositions n st tr := by
  induction tr generalizing st with
  | nil =>
    refine ⟨h, fun x => ?_⟩
    simp [runApp, displayedPositions]
  | cons i is ih =>
    have hstep : ((appStep n st i).anns.map Prod.fst).Nodup :=
      nodup_keys_setAnn st.anns st.current.toNat _ h
    obtain ⟨h1, h2⟩ := ih (appStep n st i) hstep
    refine ⟨h1, fun x => ?_⟩
    have hrun : runApp n st (i :: is) = runApp n (appStep n st i) is := rfl
    have hdisp : displayedPositions n st (i :: is) =
        st.current.toNat :: displayedPositions n (appStep n st i) is := rfl
    rw [hrun, h2 x, appStep_keys n st i x, hdisp, List.mem_cons]
    tauto

/-- C10: every rerun writes a Selection for the displayed position into
the annotation map (`st.current.toNat` is a key afterwards); with no
checkbox checked the written Selection is the empty list; consequently,
along any run from the initial state the number of map entries — the
annotated-images count — equals the number of distinct positions ever
displayed; and the export emits, for a map entry with the empty Selection
at an in-range position, an entry whose `selected_labels` is the empty
list. -/
theorem C10_visit_writes_selection (n : Int) (tr : List UserInput)
    (st : AppState) (inp : UserInput) (prior : List String)
    (m : List (Nat × List String)) (data : List Record) (i : Nat)
    (row : Record) (him : (i, ([] : List String)) ∈ m)
    (hrow : data.get? i = some row) :
    st.current.toNat ∈ (appStep n st inp).anns.map Prod.fst ∧
    (displayCycle prior [] false).stored = [] ∧
    (runApp n initState tr).anns.length =
      (displayedPositions n initState tr).toFinset.card ∧
    ∃ e ∈ save_annotations_to_json m data,
      e.image_index = i ∧ e.selected_labels = [] := by
  refine ⟨(appStep_keys n st inp st.current.toNat).2 (Or.inr rfl), ?_, ?_, ?_⟩
  · have hsel : (displayCycle prior [] false).selected = [] := by
      rw [displayCycle_selected]
      split
      · rfl
      · rfl
    have hnc : (displayCycle prior [] false).noneChecked = false := by
      rw [displayCycle_noneChecked, hsel]
      rfl
    rw [displayCycle_stored_eq, hnc, hsel]
    simp
  · obtain ⟨hnd, hmem⟩ := runApp_keys n tr initState (by simp [initState])
    have hfin : ((runApp n initState tr).anns.map Prod.fst).toFinset =
        (displayedPositions n initState tr).toFinset := by
      ext x
      simp only [List.mem_toFinset]
      rw [hmem x]
      simp [initState]
    calc (runApp n initState tr).anns.length
        = ((runApp n initState tr).anns.map Prod.fst).length :=
          (List.length_map _ _).symm
      _ = ((runApp n initState tr).anns.map Prod.fst).toFinset.card :=
          (List.toFinset_card_of_nodup hnd).symm
      _ = (displayedPositions n initState tr).toFinset.card := by rw [hfin]
  · refine ⟨⟨i, imgInfo row, []⟩, ?_, rfl, rfl⟩
    apply List.mem_filterMap.2
    exact ⟨(i, []), him, by rw [hrow]; rfl⟩

/-- C10 witness: one rerun with nothing checked at position 0, a singleton
map with the empty Selection at position 0, and a one-row dataset. -/
theorem C10_visit_writes_selection_witness :
    ((0, ([] : List String)) ∈ [((0 : Nat), ([] : List String))]) ∧
    ([Record.mk [("post_id", some "1")]].get? 0 =
      some (Record.mk [("post_id", some "1")])) ∧
    (initState.current.toNat ∈
      (appStep 1 initState { boxes := [], noneBox := false, nav := none }).anns.map
        Prod.fst ∧
     (displayCycle [] [] false).stored = [] ∧
     (runApp 1 initState [{ boxes := [], noneBox := false, nav := none }]).anns.length =
       (displayedPositions 1 initState
         [{ boxes := [], noneBox := false, nav := none }]).toFinset.card ∧
     ∃ e ∈ save_annotations_to_json [((0 : Nat), ([] : List String))]
         [Record.mk [("post_id", some "1")]],
       e.image_index = 0 ∧ e.selected_labels = []) :=
  ⟨by decide, by rfl,
   C10_visit_writes_selection 1 [{ boxes := [], noneBox := false, nav := none }]
     initState { boxes := [], noneBox := false, nav := none } []
     [((0 : Nat), ([] : List String))] [Record.mk [("post_id", some "1")]] 0
     (Record.mk [("post_id", some "1")]) (by decide) (by rfl)⟩
